import Mathlib

/-!
A shallow embedding of the Raft simulation in
`src/SD/Scripts/distributed_systems.py` (`RaftNode`, `RaftCluster`).

Modelling conventions:
* Python ints are `Nat` where the code keeps them non-negative (terms,
  log lengths, `next_index`) and `Int` where the code produces negative
  values (`prev_log_index`, `last_log_index`, `match_index`, `commit_index`,
  which `min(leader_commit, len(log) - 1)` can drive to `-1`).
* `time.time()` is threaded in as a `Nat` parameter `now` wherever the code
  reads the clock; write-only wall-clock timestamps on `LogEntry` and
  `Message` (never read by any logic) are omitted, as is the random
  `election_timeout` float, whose only use is the real-time firing condition
  of the election timer, modelled as scheduler nondeterminism in the cluster
  step relation.
* Python `dict` fields `next_index` / `match_index` are total functions with
  the `.get(node, 0)` default `0` (`match_index` is never read by the code);
  the Python `set` `votes_received` is a `Finset String`.
* `threading.Timer`-delayed sends and the cluster message queue are modelled
  as a multiset of in-flight messages delivered one at a time in any order.
-/

namespace StrictDev

inductive NodeState where
  | follower
  | candidate
  | leader
  | failed
  deriving DecidableEq, Repr

structure LogEntry where
  term : Nat
  index : Nat
  command : String
  deriving DecidableEq, Repr

/-- The `data` dict of a `Message`, one constructor per message `type`. -/
inductive MsgData where
  | voteRequest (last_log_index : Int) (last_log_term : Nat)
  | voteResponse (vote_granted : Bool)
  | appendEntries (prev_log_index : Int) (prev_log_term : Nat)
      (entries : List LogEntry) (leader_commit : Int)
  deriving DecidableEq, Repr

structure Message where
  from_node : String
  to_node : String
  term : Nat
  data : MsgData
  deriving DecidableEq, Repr

structure RaftNode where
  node_id : String
  cluster_nodes : List String
  state : NodeState
  current_term : Nat
  voted_for : Option String
  log : List LogEntry
  commit_index : Int
  last_applied : Int
  next_index : String → Nat
  match_index : String → Int
  last_heartbeat : Nat
  votes_received : Finset String
  is_failed : Bool
  network_partition : Bool

/-- Embeds `RaftNode.__init__`. -/
def initNode (node_id : String) (cluster_nodes : List String) : RaftNode where
  node_id := node_id
  cluster_nodes := cluster_nodes
  state := .follower
  current_term := 0
  voted_for := none
  log := []
  commit_index := 0
  last_applied := 0
  next_index := fun _ => 0
  match_index := fun _ => 0
  last_heartbeat := 0
  votes_received := ∅
  is_failed := false
  network_partition := false

/-- Embeds `RaftNode.send_message`: messages are dropped at send time when the
sender is partitioned (the random delivery delay becomes nondeterministic
delivery order at the cluster level). -/
def sendOut (n : RaftNode) (msgs : List Message) : List Message :=
  if n.network_partition then [] else msgs

/-- Python `len(self.log) - 1 if self.log else -1` (both branches equal this). -/
def lastLogIndex (n : RaftNode) : Int :=
  (n.log.length : Int) - 1

/-- Python `self.log[-1].term if self.log else 0`. -/
def lastLogTerm (n : RaftNode) : Nat :=
  (n.log.getLast?.map LogEntry.term).getD 0

/-- Embeds `RaftNode.start_election`. -/
def start_election (n : RaftNode) : RaftNode × List Message :=
  if n.is_failed then (n, []) else
  let n1 : RaftNode :=
    { n with state := .candidate, current_term := n.current_term + 1,
             voted_for := some n.node_id, votes_received := {n.node_id} }
  let reqs := (n1.cluster_nodes.filter (· ≠ n1.node_id)).map fun node =>
    { from_node := n1.node_id, to_node := node, term := n1.current_term,
      data := .voteRequest (lastLogIndex n1) (lastLogTerm n1) }
  (n1, sendOut n1 reqs)

/-- Embeds `RaftNode.handle_vote_request`.  Returns the new node, the messages it
sent, and the Python return value.  Note the handler never reads the
candidate's `last_log_index` / `last_log_term` from `message.data`. -/
def handle_vote_request (m : Message) (n : RaftNode) :
    RaftNode × List Message × Bool :=
  if n.is_failed then (n, [], false) else
  let n1 := if m.term > n.current_term then
      { n with current_term := m.term, voted_for := none, state := .follower }
    else n
  if m.term ≥ n1.current_term ∧
      (n1.voted_for = none ∨ n1.voted_for = some m.from_node) then
    let n2 := { n1 with voted_for := some m.from_node }
    let resp : Message :=
      { from_node := n2.node_id, to_node := m.from_node,
        term := n2.current_term, data := .voteResponse true }
    (n2, sendOut n2 [resp], true)
  else
    (n1, [], false)

/-- Embeds `RaftNode.send_heartbeat`. -/
def send_heartbeat (n : RaftNode) : List Message :=
  if n.state ≠ .leader ∨ n.is_failed then [] else
  let msgs := (n.cluster_nodes.filter (· ≠ n.node_id)).map fun node =>
    { from_node := n.node_id, to_node := node, term := n.current_term,
      data := .appendEntries (lastLogIndex n) (lastLogTerm n) [] n.commit_index }
  sendOut n msgs

/-- Embeds `RaftNode.become_leader`.  The Python `for` loop writing
`next_index[node] = len(self.log)` and `match_index[node] = -1` for every
other node is modelled as the equivalent pointwise function update. -/
def become_leader (n : RaftNode) : RaftNode × List Message :=
  let peers := n.cluster_nodes.filter (· ≠ n.node_id)
  let n1 : RaftNode :=
    { n with state := .leader,
             next_index := fun p => if p ∈ peers then n.log.length else n.next_index p,
             match_index := fun p => if p ∈ peers then -1 else n.match_index p }
  (n1, send_heartbeat n1)

/-- Embeds `RaftNode.handle_vote_response`.  `message.data.get("vote_granted")` is
falsy unless the payload is a `voteResponse` carrying `true`. -/
def handle_vote_response (m : Message) (n : RaftNode) : RaftNode × List Message :=
  if n.state ≠ .candidate ∨ m.term ≠ n.current_term ∨ n.is_failed then (n, []) else
  match m.data with
  | .voteResponse true =>
      let n1 := { n with votes_received := insert m.from_node n.votes_received }
      if n1.votes_received.card > n1.cluster_nodes.length / 2 then
        become_leader n1
      else
        (n1, [])
  | _ => (n, [])

/-- Embeds `RaftNode.replicate_log`.  `self.log[next_idx:] if next_idx < len(self.log)
else []` is `List.drop`; `self.log[next_idx - 1].term` is read only under the
`next_idx > 0` guard, where the code keeps it in range. -/
def replicate_log (n : RaftNode) : List Message :=
  if n.state ≠ .leader then [] else
  let msgs := (n.cluster_nodes.filter (· ≠ n.node_id)).map fun node =>
    let next_idx := n.next_index node
    let entries := n.log.drop next_idx
    { from_node := n.node_id, to_node := node, term := n.current_term,
      data := .appendEntries ((next_idx : Int) - 1)
        (if next_idx > 0 then ((n.log[next_idx - 1]?).map LogEntry.term).getD 0 else 0)
        entries n.commit_index }
  sendOut n msgs

/-- Embeds `RaftNode.append_entry`: node after the call, Python return value, and
the messages sent by the nested `replicate_log`. -/
def append_entry (command : String) (n : RaftNode) :
    RaftNode × Bool × List Message :=
  if n.state ≠ .leader ∨ n.is_failed then (n, false, []) else
  let entry : LogEntry :=
    { term := n.current_term, index := n.log.length, command := command }
  let n1 := { n with log := n.log ++ [entry] }
  (n1, true, replicate_log n1)

/-- Embeds `RaftNode.handle_append_entries`, with the `message.data` dict fields
passed directly (the dispatcher only routes `append_entries`-typed messages
here, whose dict always carries all four keys). -/
def handle_append_entries (now : Nat) (term : Nat) (prev_log_index : Int)
    (prev_log_term : Nat) (entries : List LogEntry) (leader_commit : Int)
    (n : RaftNode) : RaftNode × Bool :=
  if n.is_failed then (n, false) else
  let n1 := if term ≥ n.current_term then
      { n with current_term := term, state := .follower, voted_for := none,
               last_heartbeat := now }
    else n
  if term < n1.current_term then (n1, false) else
  if prev_log_index ≥ 0 ∧
      ((n1.log.length : Int) ≤ prev_log_index ∨
        ((n1.log[prev_log_index.toNat]?).map LogEntry.term).getD 0 ≠ prev_log_term) then
    (n1, false)
  else
    let n2 := if entries ≠ [] then
        { n1 with log := n1.log.take (prev_log_index + 1).toNat ++ entries }
      else n1
    let n3 := if leader_commit > n2.commit_index then
        { n2 with commit_index := min leader_commit ((n2.log.length : Int) - 1) }
      else n2
    (n3, true)

/-- Embeds `RaftNode.fail_node`. -/
def fail_node (n : RaftNode) : RaftNode :=
  { n with is_failed := true, state := .failed }

/-- Embeds `RaftNode.recover_node`. -/
def recover_node (now : Nat) (n : RaftNode) : RaftNode :=
  { n with is_failed := false, state := .follower, last_heartbeat := now }

/-- Embeds `RaftNode.partition_node`. -/
def partition_node (partitioned : Bool) (n : RaftNode) : RaftNode :=
  { n with network_partition := partitioned }

/-! ### `RaftCluster` -/

structure RaftCluster where
  node_ids : List String
  nodes : String → RaftNode
  in_flight : List Message

/-- Embeds `RaftCluster.__init__`: one `RaftNode(node_id, node_ids)` per id. -/
def initCluster (node_ids : List String) : RaftCluster where
  node_ids := node_ids
  nodes := fun id => initNode id node_ids
  in_flight := []

/-- One delivery step of `RaftCluster._process_messages`: look up the target
(`self.nodes.get(message.to_node)`), skip failed targets, and dispatch on the
message type; the `bool` returned by `handle_append_entries` is discarded and
no reply is sent for it, exactly as in the dispatcher. -/
def deliver (now : Nat) (m : Message) (c : RaftCluster) : RaftCluster :=
  let rest := c.in_flight.erase m
  if m.to_node ∈ c.node_ids ∧ (c.nodes m.to_node).is_failed = false then
    match m.data with
    | .voteRequest _ _ =>
        let r := handle_vote_request m (c.nodes m.to_node)
        { c with nodes := Function.update c.nodes m.to_node r.1,
                 in_flight := rest ++ r.2.1 }
    | .voteResponse _ =>
        let r := handle_vote_response m (c.nodes m.to_node)
        { c with nodes := Function.update c.nodes m.to_node r.1,
                 in_flight := rest ++ r.2 }
    | .appendEntries p pt es lc =>
        let r := handle_append_entries now m.term p pt es lc (c.nodes m.to_node)
        { c with nodes := Function.update c.nodes m.to_node r.1,
                 in_flight := rest }
  else
    { c with in_flight := rest }

/-- The election-timeout branch of `RaftCluster._run_node`: the node starts
an election and its vote requests are queued. -/
def applyTimeout (id : String) (c : RaftCluster) : RaftCluster :=
  let r := start_election (c.nodes id)
  { c with nodes := Function.update c.nodes id r.1,
           in_flight := c.in_flight ++ r.2 }

/-- The periodic-heartbeat branch of `RaftCluster._run_node`. -/
def applyHeartbeat (id : String) (c : RaftCluster) : RaftCluster :=
  { c with in_flight := c.in_flight ++ send_heartbeat (c.nodes id) }

/-- Embeds `RaftCluster.fail_node`. -/
def applyFail (id : String) (c : RaftCluster) : RaftCluster :=
  if id ∈ c.node_ids then
    { c with nodes := Function.update c.nodes id (fail_node (c.nodes id)) }
  else c

/-- Embeds `RaftCluster.recover_node`. -/
def applyRecover (now : Nat) (id : String) (c : RaftCluster) : RaftCluster :=
  if id ∈ c.node_ids then
    { c with nodes := Function.update c.nodes id (recover_node now (c.nodes id)) }
  else c

/-- One node's update in `RaftCluster.partition_nodes`. -/
def applyPartition (partitioned : Bool) (id : String) (c : RaftCluster) : RaftCluster :=
  if id ∈ c.node_ids then
    { c with nodes := Function.update c.nodes id (partition_node partitioned (c.nodes id)) }
  else c

/-- Embeds `RaftCluster.get_leader`: first node in insertion (= `node_ids`) order
whose state is `LEADER` and which is not failed. -/
def get_leader (c : RaftCluster) : Option String :=
  c.node_ids.find? fun id =>
    ((c.nodes id).state == NodeState.leader) && ((c.nodes id).is_failed == false)

/-- Embeds `RaftCluster.append_command`.  `if leader_id:` is Python truthiness:
`None` and the empty string both fail it. -/
def append_command (command : String) (c : RaftCluster) : RaftCluster × Bool :=
  match get_leader c with
  | some leader_id =>
      if leader_id = "" then (c, false) else
      let r := append_entry command (c.nodes leader_id)
      ({ c with nodes := Function.update c.nodes leader_id r.1,
                in_flight := c.in_flight ++ r.2.2 }, r.2.1)
  | none => (c, false)

/-! ### The cluster step relation

Each constructor is one state-changing operation of the simulation: an
election timeout firing (`_run_node`, whose real-time guard `time passed >
election_timeout` is scheduler nondeterminism), a leader heartbeat tick, the
delivery of one in-flight message (`_process_messages`, where send delays
make delivery order nondeterministic), a client `append_command`, and the
fault-injection operations. -/
inductive ClusterStep : RaftCluster → RaftCluster → Prop where
  | timeout (id : String) (c : RaftCluster) :
      id ∈ c.node_ids →
      ((c.nodes id).state = .follower ∨ (c.nodes id).state = .candidate) →
      (c.nodes id).is_failed = false →
      ClusterStep c (applyTimeout id c)
  | heartbeat (id : String) (c : RaftCluster) :
      id ∈ c.node_ids →
      (c.nodes id).state = .leader →
      (c.nodes id).is_failed = false →
      ClusterStep c (applyHeartbeat id c)
  | deliverMsg (now : Nat) (m : Message) (c : RaftCluster) :
      m ∈ c.in_flight →
      ClusterStep c (deliver now m c)
  | clientAppend (command : String) (c : RaftCluster) :
      ClusterStep c (append_command command c).1
  | failNode (id : String) (c : RaftCluster) :
      ClusterStep c (applyFail id c)
  | recoverNode (now : Nat) (id : String) (c : RaftCluster) :
      ClusterStep c (applyRecover now id c)
  | partitionNode (partitioned : Bool) (id : String) (c : RaftCluster) :
      ClusterStep c (applyPartition partitioned id c)

/-- Reachability of a cluster state along `ClusterStep`. -/
inductive Reachable (init : RaftCluster) : RaftCluster → Prop where
  | refl : Reachable init init
  | step {c c' : RaftCluster} : Reachable init c → ClusterStep c c' →
      Reachable init c'

/-! ### A concrete execution of a fully connected five-node cluster in which
two nodes complete elections as leader in the same term.

Nodes `a` and `d` both time out at term `0` (their random election timeouts
may fire before any message reaches them).  `a` wins with votes from `b`, `c`;
`a`'s heartbeats then make `b` and `c` clear `voted_for` (the
`message.term >= self.current_term` branch of `handle_append_entries` fires
on the *equal* term), so `b` and `c` vote a second time in term 1, now for
`d`, and `d` also becomes leader in term 1.  No node fails or is
partitioned, and no message is lost. -/

namespace TwoLeaders

def ids5 : List String := ["a", "b", "c", "d", "e"]

def mReq (src dst : String) : Message :=
  { from_node := src, to_node := dst, term := 1, data := .voteRequest (-1) 0 }

def mResp (src dst : String) : Message :=
  { from_node := src, to_node := dst, term := 1, data := .voteResponse true }

def mHb (src dst : String) : Message :=
  { from_node := src, to_node := dst, term := 1, data := .appendEntries (-1) 0 [] 0 }

def s1 : RaftCluster := applyTimeout "a" (initCluster ids5)
def s2 : RaftCluster := deliver 0 (mReq "a" "b") s1
def s3 : RaftCluster := deliver 0 (mReq "a" "c") s2
def s4 : RaftCluster := deliver 0 (mResp "b" "a") s3
def s5 : RaftCluster := deliver 0 (mResp "c" "a") s4
def s6 : RaftCluster := deliver 0 (mHb "a" "b") s5
def s7 : RaftCluster := deliver 0 (mHb "a" "c") s6
def s8 : RaftCluster := applyTimeout "d" s7
def s9 : RaftCluster := deliver 0 (mReq "d" "b") s8
def s10 : RaftCluster := deliver 0 (mReq "d" "c") s9
def s11 : RaftCluster := deliver 0 (mResp "b" "d") s10
def s12 : RaftCluster := deliver 0 (mResp "c" "d") s11

end TwoLeaders

/-- C1 (refuted; the code contradicts the claimed Raft election safety): in a
fully connected, never-partitioned, failure-free five-node cluster there is a
reachable execution in which the two distinct nodes `a` and `d` have both
completed an election as `leader` with `current_term = 1`. -/
theorem C1_two_leaders_elected_in_same_term :
    Reachable (initCluster TwoLeaders.ids5) TwoLeaders.s12 ∧
    (TwoLeaders.s12.nodes "a").state = .leader ∧
    (TwoLeaders.s12.nodes "d").state = .leader ∧
    (TwoLeaders.s12.nodes "a").current_term = 1 ∧
    (TwoLeaders.s12.nodes "d").current_term = 1 ∧
    "a" ≠ "d" ∧
    (TwoLeaders.s12.node_ids.all fun id =>
        !(TwoLeaders.s12.nodes id).network_partition &&
        !(TwoLeaders.s12.nodes id).is_failed) = true := by
  refine ⟨?_, by decide, by decide, by decide, by decide, by decide, by decide⟩
  have h1 : Reachable (initCluster TwoLeaders.ids5) TwoLeaders.s1 :=
    .step .refl (.timeout "a" _ (by decide) (by decide) (by decide))
  have h2 := Reachable.step h1 (.deliverMsg 0 (TwoLeaders.mReq "a" "b") _ (by decide))
  have h3 := Reachable.step h2 (.deliverMsg 0 (TwoLeaders.mReq "a" "c") _ (by decide))
  have h4 := Reachable.step h3 (.deliverMsg 0 (TwoLeaders.mResp "b" "a") _ (by decide))
  have h5 := Reachable.step h4 (.deliverMsg 0 (TwoLeaders.mResp "c" "a") _ (by decide))
  have h6 := Reachable.step h5 (.deliverMsg 0 (TwoLeaders.mHb "a" "b") _ (by decide))
  have h7 := Reachable.step h6 (.deliverMsg 0 (TwoLeaders.mHb "a" "c") _ (by decide))
  have h8 := Reachable.step h7 (.timeout "d" _ (by decide) (by decide) (by decide))
  have h9 := Reachable.step h8 (.deliverMsg 0 (TwoLeaders.mReq "d" "b") _ (by decide))
  have h10 := Reachable.step h9 (.deliverMsg 0 (TwoLeaders.mReq "d" "c") _ (by decide))
  have h11 := Reachable.step h10 (.deliverMsg 0 (TwoLeaders.mResp "b" "d") _ (by decide))
  exact Reachable.step h11 (.deliverMsg 0 (TwoLeaders.mResp "c" "d") _ (by decide))

/-! ### A concrete execution in which a follower accepts the leader's
AppendEntries yet the leader receives no feedback.

`a` is elected leader of a three-node cluster, appends command `"x"` and
replicates it; `b` accepts and stores the entry.  `_process_messages`
discards the `bool` returned by `handle_append_entries`, no response message
type exists, and `become_leader` is the only writer of `next_index` /
`match_index`, so the leader's replication state and `commit_index` never
move. -/

namespace Repl

def ids3 : List String := ["a", "b", "c"]

def t1 : RaftCluster := applyTimeout "a" (initCluster ids3)
def t2 : RaftCluster := deliver 0
  { from_node := "a", to_node := "b", term := 1, data := .voteRequest (-1) 0 } t1
def t3 : RaftCluster := deliver 0
  { from_node := "b", to_node := "a", term := 1, data := .voteResponse true } t2
def t4 : RaftCluster := (append_command "x" t3).1

/-- The replication message `replicate_log` sends to `b` for entry `"x"`. -/
def repMsg : Message :=
  { from_node := "a", to_node := "b", term := 1,
    data := .appendEntries (-1) 0 [{ term := 1, index := 0, command := "x" }] 0 }

def t5 : RaftCluster := deliver 0 repMsg t4

end Repl

/-- C2 (refuted; the feedback path does not exist in the code): in a
reachable execution the peer `b` has accepted and stored the leader's entry,
yet the leader `a` still has `match_index "b" = -1` and `next_index "b" = 0`
exactly as `become_leader` initialized them, its `commit_index` is still `0`
although the entry is on 2 of 3 nodes in the leader's own term, and no
message addressed back to the leader is in flight: the dispatcher discards
the `bool` result of `handle_append_entries` and no acceptance, rejection,
`next_index` decrement or retry ever reaches the leader. -/
theorem C2_no_replication_feedback :
    Reachable (initCluster Repl.ids3) Repl.t5 ∧
    (Repl.t5.nodes "a").state = .leader ∧
    (Repl.t5.nodes "a").log = [{ term := 1, index := 0, command := "x" }] ∧
    (Repl.t5.nodes "b").log = [{ term := 1, index := 0, command := "x" }] ∧
    (Repl.t5.nodes "a").match_index "b" = -1 ∧
    (Repl.t5.nodes "a").next_index "b" = 0 ∧
    (Repl.t5.nodes "a").commit_index = 0 ∧
    (Repl.t5.in_flight.all fun m => m.to_node != "a") = true := by
  refine ⟨?_, by decide, by decide, by decide, by decide, by decide, by decide, by decide⟩
  have h1 : Reachable (initCluster Repl.ids3) Repl.t1 :=
    .step .refl (.timeout "a" _ (by decide) (by decide) (by decide))
  have h2 := Reachable.step h1 (.deliverMsg 0
    { from_node := "a", to_node := "b", term := 1, data := .voteRequest (-1) 0 } _ (by decide))
  have h3 := Reachable.step h2 (.deliverMsg 0
    { from_node := "b", to_node := "a", term := 1, data := .voteResponse true } _ (by decide))
  have h4 := Reachable.step h3 (.clientAppend "x" _)
  exact Reachable.step h4 (.deliverMsg 0 Repl.repMsg _ (by decide))

/-! ### Vote recency (C3): `handle_vote_request` never reads the candidate's
`last_log_index` / `last_log_term`. -/

/-- A voter at term 2 whose log holds one entry of term 2. -/
def staleVoter : RaftNode :=
  { initNode "b" ["a", "b", "c"] with
    current_term := 2,
    log := [{ term := 2, index := 0, command := "cmd" }] }

/-- A vote request from candidate `a` at term 3 whose last log entry
(`last_log_term = 0`, `last_log_index = -1`) is strictly less up to date
than `staleVoter`'s (`last_log_term = 2`, `last_log_index = 0`). -/
def staleReq : Message :=
  { from_node := "a", to_node := "b", term := 3, data := .voteRequest (-1) 0 }

/-- C3 (refuted; the code omits the recency check its own comment claims):
a voter whose last log entry has term 2 grants its vote — returns `true`,
records `voted_for = "a"` and sends `vote_granted = true` — to a candidate
whose last log entry is strictly less up to date (term 0, index -1). -/
theorem C3_vote_granted_to_stale_candidate :
    (handle_vote_request staleReq staleVoter).2.2 = true ∧
    (handle_vote_request staleReq staleVoter).1.voted_for = some "a" ∧
    (handle_vote_request staleReq staleVoter).2.1 =
      [{ from_node := "b", to_node := "a", term := 3, data := .voteResponse true }] := by
  decide

/-! ### Partition semantics (C5): the partition flag gates only the sending
side; delivery checks only `is_failed` on the receiver. -/

namespace Part

def p0 : RaftCluster := applyPartition true "b" (initCluster ["a", "b", "c"])
def p1 : RaftCluster := applyTimeout "a" p0
def p2 : RaftCluster := deliver 0
  { from_node := "a", to_node := "b", term := 1, data := .voteRequest (-1) 0 } p1

end Part

/-- C5 (refuted): in a reachable execution, node `b` is marked partitioned
(and not failed) at delivery time, yet delivering `a`'s vote request to it is
not a no-op — `b` adopts term 1 and records a vote for `a`.
`_process_messages` never consults the receiver's `network_partition`. -/
theorem C5_partitioned_receiver_processes_message :
    Reachable (initCluster ["a", "b", "c"]) Part.p2 ∧
    (Part.p1.nodes "b").network_partition = true ∧
    (Part.p1.nodes "b").is_failed = false ∧
    (Part.p1.nodes "b").current_term = 0 ∧
    (Part.p1.nodes "b").voted_for = none ∧
    (Part.p2.nodes "b").current_term = 1 ∧
    (Part.p2.nodes "b").voted_for = some "a" := by
  refine ⟨?_, by decide, by decide, by decide, by decide, by decide, by decide⟩
  have h1 : Reachable (initCluster ["a", "b", "c"]) Part.p0 :=
    .step .refl (.partitionNode true "b" _)
  have h2 := Reachable.step h1 (.timeout "a" _ (by decide) (by decide) (by decide))
  exact Reachable.step h2 (.deliverMsg 0
    { from_node := "a", to_node := "b", term := 1, data := .voteRequest (-1) 0 } _ (by decide))

/-- A partitioned node's `send_heartbeat` emits nothing. -/
lemma send_heartbeat_partitioned (n : RaftNode) (hpart : n.network_partition = true) :
    send_heartbeat n = [] := by
  unfold send_heartbeat
  split
  · rfl
  · simp [sendOut, hpart]

/-- A partitioned node's `replicate_log` emits nothing. -/
lemma replicate_log_partitioned (n : RaftNode) (hpart : n.network_partition = true) :
    replicate_log n = [] := by
  unfold replicate_log
  split
  · rfl
  · simp [sendOut, hpart]

/-- C5 amended: what the code actually guarantees.  A message whose receiver
has *failed* is dropped at delivery with no state change, and a node whose
own `network_partition` flag is set sends nothing (its outbound messages are
dropped by `send_message`); the receiver's partition flag is never checked. -/
theorem C5_amended_partition_blocks_outbound_only
    (now : Nat) (m : Message) (c : RaftCluster) (n : RaftNode) (command : String)
    (hfail : (c.nodes m.to_node).is_failed = true)
    (hpart : n.network_partition = true) :
    (deliver now m c).nodes = c.nodes ∧
    (start_election n).2 = [] ∧
    send_heartbeat n = [] ∧
    replicate_log n = [] ∧
    (handle_vote_request m n).2.1 = [] ∧
    (handle_vote_response m n).2 = [] ∧
    (append_entry command n).2.2 = [] := by
  refine ⟨?_, ?_, send_heartbeat_partitioned n hpart, replicate_log_partitioned n hpart,
    ?_, ?_, ?_⟩
  · unfold deliver
    simp [hfail]
  · unfold start_election
    split
    · rfl
    · simp [sendOut, hpart]
  · unfold handle_vote_request
    split
    · rfl
    · split <;> (dsimp only; split <;> simp [sendOut, hpart])
  · unfold handle_vote_response
    split
    · rfl
    · split
      · dsimp only
        split
        · unfold become_leader
          exact send_heartbeat_partitioned _ hpart
        · rfl
      · rfl
  · unfold append_entry
    split
    · rfl
    · exact replicate_log_partitioned _ hpart

/-! ### Step-down behaviour (C6): `handle_vote_request` steps down only on a
*strictly* greater term, and never touches the election deadline. -/

/-- A candidate at term 5 that has voted for itself. -/
def equalTermCandidate : RaftNode :=
  { initNode "a" ["a", "b", "c"] with
    state := .candidate,
    current_term := 5,
    voted_for := some "a",
    votes_received := {"a"} }

/-- A vote request carrying a term equal to `equalTermCandidate`'s. -/
def equalTermReq : Message :=
  { from_node := "b", to_node := "a", term := 5, data := .voteRequest (-1) 0 }

/-- C6 (refuted for the equal-term case): a candidate that receives a
VoteRequest whose term equals its `current_term` stays `candidate` and keeps
its own vote — it does not become follower and `voted_for` is not cleared.
`handle_vote_request` only steps down when `message.term > current_term`. -/
theorem C6_equal_term_vote_request_no_step_down :
    equalTermReq.term = equalTermCandidate.current_term ∧
    equalTermCandidate.is_failed = false ∧
    (handle_vote_request equalTermReq equalTermCandidate).1.state = .candidate ∧
    (handle_vote_request equalTermReq equalTermCandidate).1.voted_for = some "a" := by
  decide

/-- C6 amended: a node in any role steps down — becomes `follower`, adopts the
message term, clears `voted_for` (and, for a VoteRequest, then records the
newly granted vote) — on a VoteRequest of *strictly greater* term and on an
AppendEntries of greater-or-equal term; the AppendEntries step-down resets
the election deadline, while a VoteRequest never touches it, granted or not. -/
theorem C6_amended_step_down
    (m : Message) (now term : Nat) (p : Int) (pt : Nat) (es : List LogEntry)
    (lc : Int) (n : RaftNode) (hf : n.is_failed = false) :
    (m.term > n.current_term →
      (handle_vote_request m n).1.state = .follower ∧
      (handle_vote_request m n).1.current_term = m.term ∧
      (handle_vote_request m n).1.voted_for = some m.from_node) ∧
    (term ≥ n.current_term →
      (handle_append_entries now term p pt es lc n).1.state = .follower ∧
      (handle_append_entries now term p pt es lc n).1.current_term = term ∧
      (handle_append_entries now term p pt es lc n).1.voted_for = none ∧
      (handle_append_entries now term p pt es lc n).1.last_heartbeat = now) ∧
    (handle_vote_request m n).1.last_heartbeat = n.last_heartbeat := by
  refine ⟨?_, ?_, ?_⟩
  · intro hgt
    simp [handle_vote_request, hf, hgt]
  · intro hge
    unfold handle_append_entries
    simp only [hf, Bool.false_eq_true, if_false, hge, if_true, not_lt_of_ge]
    split
    · simp
    · split
      · simp
      · dsimp only
        split <;> split <;> simp
  · unfold handle_vote_request
    split
    · rfl
    · split <;> (dsimp only; split <;> simp)

/-- Witness for `C6_amended_step_down` at a concrete fresh follower. -/
theorem C6_amended_witness :
    (handle_vote_request
        { from_node := "a", to_node := "b", term := 1, data := .voteRequest (-1) 0 }
        (initNode "b" ["a", "b"])).1.state = .follower ∧
    (handle_append_entries 7 1 (-1) 0 [] 0 (initNode "b" ["a", "b"])).1.last_heartbeat = 7 :=
  ⟨((C6_amended_step_down
      { from_node := "a", to_node := "b", term := 1, data := .voteRequest (-1) 0 }
      7 1 (-1) 0 [] 0 (initNode "b" ["a", "b"]) (by decide)).1 (by decide)).1,
   ((C6_amended_step_down
      { from_node := "a", to_node := "b", term := 1, data := .voteRequest (-1) 0 }
      7 1 (-1) 0 [] 0 (initNode "b" ["a", "b"]) (by decide)).2.1 (by decide)).2.2.2⟩

/-- Witness for `C5_amended_partition_blocks_outbound_only` at a concrete
failed receiver and a concrete partitioned sender. -/
theorem C5_amended_witness :
    (deliver 0 { from_node := "a", to_node := "b", term := 1, data := .voteRequest (-1) 0 }
        (applyFail "b" (initCluster ["a", "b"]))).nodes =
      (applyFail "b" (initCluster ["a", "b"])).nodes ∧
    (start_election (partition_node true (initNode "a" ["a", "b"]))).2 = [] :=
  ⟨(C5_amended_partition_blocks_outbound_only 0
      { from_node := "a", to_node := "b", term := 1, data := .voteRequest (-1) 0 }
      (applyFail "b" (initCluster ["a", "b"]))
      (partition_node true (initNode "a" ["a", "b"])) "cmd" (by decide) (by decide)).1,
   (C5_amended_partition_blocks_outbound_only 0
      { from_node := "a", to_node := "b", term := 1, data := .voteRequest (-1) 0 }
      (applyFail "b" (initCluster ["a", "b"]))
      (partition_node true (initNode "a" ["a", "b"])) "cmd" (by decide) (by decide)).2.1⟩

/-! ### C9: a rejected AppendEntries of current-or-newer term still mutates
term, role, vote and heartbeat. -/

/-- C9 (confirmed): when a live node receives an AppendEntries whose term is
`≥` its own but the log-consistency check fails, the handler returns `false`
and the node's whole new state is exactly its old state with `current_term`
set to the message term, role set to `follower`, `voted_for` cleared and
`last_heartbeat` reset — in particular the log and `commit_index` are
untouched, but the state is not left wholly unchanged. -/
theorem C9_rejected_append_still_steps_down
    (now term : Nat) (p : Int) (pt : Nat) (es : List LogEntry) (lc : Int)
    (n : RaftNode) (hf : n.is_failed = false) (hge : term ≥ n.current_term)
    (hrej : p ≥ 0 ∧ ((n.log.length : Int) ≤ p ∨
      ((n.log[p.toNat]?).map LogEntry.term).getD 0 ≠ pt)) :
    handle_append_entries now term p pt es lc n =
      ({ n with current_term := term, state := .follower, voted_for := none,
                last_heartbeat := now }, false) := by
  unfold handle_append_entries
  simp only [hf, Bool.false_eq_true, if_false, hge, if_true, lt_irrefl]
  rw [if_pos hrej]

/-- Witness for `C9_rejected_append_still_steps_down`: an empty-logged
follower rejects `prev_log_index = 0`. -/
theorem C9_witness :
    handle_append_entries 3 1 0 0 [] 0 (initNode "b" ["a", "b"]) =
      ({ initNode "b" ["a", "b"] with
          current_term := 1, state := .follower,
          voted_for := none, last_heartbeat := 3 }, false) :=
  C9_rejected_append_still_steps_down 3 1 0 0 [] 0 (initNode "b" ["a", "b"])
    (by decide) (by decide) (by decide)

/-! ### C7: the candidate-to-leader transition. -/

/-- C7 (confirmed): a live candidate ends `handle_vote_response` as leader
exactly when the response carries the candidate's current term (the term it
started the election with), grants the vote, and the resulting set of
distinct granting nodes — the candidate's own vote included, since
`start_election` seeds `votes_received` with it — outnumbers half the
cluster. -/
theorem C7_strict_majority_election (m : Message) (g : Bool) (n : RaftNode)
    (hc : n.state = .candidate) (hf : n.is_failed = false)
    (hd : m.data = .voteResponse g) :
    ((handle_vote_response m n).1.state = .leader ↔
      (m.term = n.current_term ∧ g = true ∧
        (insert m.from_node n.votes_received).card > n.cluster_nodes.length / 2)) := by
  unfold handle_vote_response
  by_cases ht : m.term = n.current_term
  · rw [if_neg (by simp [hc, ht, hf])]
    rw [hd]
    cases g with
    | false =>
        simp only [hc]
        constructor
        · intro h
          exact absurd h (by decide)
        · rintro ⟨-, h, -⟩
          exact absurd h (by decide)
    | true =>
        dsimp only
        split
        · simp_all [become_leader]
        · simp only [hc]
          constructor
          · intro h
            exact absurd h (by decide)
          · rintro ⟨-, -, h⟩
            simp_all
  · rw [if_pos (by simp [ht])]
    simp only [hc]
    constructor
    · intro h
      exact absurd h (by decide)
    · rintro ⟨h, -, -⟩
      exact absurd h ht

/-- Witness for `C7_strict_majority_election`: in a three-node cluster a
candidate holding its own vote becomes leader on the second grant. -/
theorem C7_witness :
    (handle_vote_response
        { from_node := "b", to_node := "a", term := 1, data := .voteResponse true }
        { initNode "a" ["a", "b", "c"] with
          state := .candidate, current_term := 1,
          voted_for := some "a", votes_received := {"a"} }).1.state = .leader :=
  (C7_strict_majority_election _ true _ (by decide) (by decide) rfl).mpr (by decide)

/-! ### C10: `votes_received` is a *set* seeded with the candidate itself. -/

/-- C10 (confirmed): handling the same vote response twice leaves the node
exactly as handling it once (a duplicate grant re-inserts an id already in
the `votes_received` set, or arrives after the candidate already stepped up
to leader and is ignored), and `start_election` reseeds `votes_received` to
the singleton of the candidate's own id; so only grants from distinct nodes
can push `votes_received.card` over the strict-majority threshold. -/
theorem C10_duplicate_votes_idempotent (m : Message) (n : RaftNode) :
    (handle_vote_response m (handle_vote_response m n).1).1 =
      (handle_vote_response m n).1 ∧
    (n.is_failed = false → (start_election n).1.votes_received = {n.node_id}) := by
  constructor
  · by_cases h1 : n.state ≠ NodeState.candidate ∨ m.term ≠ n.current_term ∨ n.is_failed
    · simp [handle_vote_response, h1]
    · push_neg at h1
      obtain ⟨hs, ht, hfail⟩ := h1
      cases hm : m.data with
      | voteRequest d1 d2 => simp [handle_vote_response, hm, hs, ht, hfail]
      | appendEntries d3 d4 d5 d6 => simp [handle_vote_response, hm, hs, ht, hfail]
      | voteResponse g =>
        cases g with
        | false => simp [handle_vote_response, hm, hs, ht, hfail]
        | true =>
            by_cases hcard : (insert m.from_node n.votes_received).card >
                n.cluster_nodes.length / 2
            · have hstate : (handle_vote_response m n).1.state = NodeState.leader := by
                rw [handle_vote_response, if_neg (by simp [hs, ht, hfail]), hm]
                dsimp only
                rw [if_pos hcard]
                rfl
              conv_lhs => rw [handle_vote_response]
              rw [if_pos (Or.inl (by rw [hstate]; decide))]
            · have hinner : handle_vote_response m n =
                  ({ n with votes_received := insert m.from_node n.votes_received }, []) := by
                rw [handle_vote_response, if_neg (by simp [hs, ht, hfail]), hm]
                dsimp only
                rw [if_neg hcard]
              rw [hinner]
              dsimp only
              rw [handle_vote_response, if_neg (by simp [hs, ht, hfail]), hm]
              dsimp only
              rw [if_neg (by simpa [Finset.insert_idem] using hcard)]
              simp [Finset.insert_idem]
  · intro hf
    unfold start_election
    rw [if_neg (by simp [hf])]

/-- Witness for `C10_duplicate_votes_idempotent` (its second conjunct has a
hypothesis) at a fresh node. -/
theorem C10_witness :
    (start_election (initNode "a" ["a", "b", "c"])).1.votes_received = {"a"} :=
  (C10_duplicate_votes_idempotent
      { from_node := "b", to_node := "a", term := 1, data := .voteResponse true }
      (initNode "a" ["a", "b", "c"])).2 (by decide)

/-! ### C8: `append_command` with and without a live leader. -/

/-- The function `get_leader` returns `none` exactly when no node of the cluster is a
non-failed leader. -/
lemma get_leader_eq_none_iff (c : RaftCluster) :
    get_leader c = none ↔
      ∀ id ∈ c.node_ids,
        ¬((c.nodes id).state = .leader ∧ (c.nodes id).is_failed = false) := by
  unfold get_leader
  rw [List.find?_eq_none]
  constructor
  · intro h id hid hcon
    have := h id hid
    simp [hcon.1, hcon.2] at this
  · intro h id hid
    have hh := h id hid
    intro hcon
    rw [Bool.and_eq_true] at hcon
    exact hh ⟨by simpa using hcon.1, by simpa using hcon.2⟩

/-- C8 (confirmed): if no non-failed node is in the `leader` state,
`append_command` returns the cluster unchanged (nothing queued, no log
touched) paired with `false`; if `get_leader` finds a leader, that node is a
non-failed leader, the command is appended on exactly that node (its
`append_entry` result, `true`, is returned, and the replication messages it
sent are queued) and every other node is untouched.  The well-formedness
hypothesis `"" ∉ node_ids` rules out the empty node id, which Python's
`if leader_id:` truthiness test would conflate with `None`. -/
theorem C8_append_command_routing (c : RaftCluster) (command : String)
    (hne : "" ∉ c.node_ids) :
    ((∀ id ∈ c.node_ids,
        ¬((c.nodes id).state = .leader ∧ (c.nodes id).is_failed = false)) →
      append_command command c = (c, false)) ∧
    (∀ lid, get_leader c = some lid →
      (c.nodes lid).state = .leader ∧ (c.nodes lid).is_failed = false ∧
      (append_entry command (c.nodes lid)).2.1 = true ∧
      append_command command c =
        ({ c with
            nodes := Function.update c.nodes lid (append_entry command (c.nodes lid)).1,
            in_flight := c.in_flight ++ (append_entry command (c.nodes lid)).2.2 },
          (append_entry command (c.nodes lid)).2.1)) := by
  constructor
  · intro h
    have hnone : get_leader c = none := (get_leader_eq_none_iff c).mpr h
    unfold append_command
    rw [hnone]
  · intro lid hlid
    have hmem : lid ∈ c.node_ids := List.mem_of_find?_eq_some hlid
    have hp := List.find?_some hlid
    have hstate : (c.nodes lid).state = .leader := by
      have := (Bool.and_eq_true _ _).mp hp
      simpa using this.1
    have hfail : (c.nodes lid).is_failed = false := by
      have := (Bool.and_eq_true _ _).mp hp
      simpa using this.2
    refine ⟨hstate, hfail, ?_, ?_⟩
    · unfold append_entry
      rw [if_neg (by simp [hstate, hfail])]
    · unfold append_command
      rw [hlid]
      dsimp only
      rw [if_neg (show ¬lid = "" from fun h => hne (h ▸ hmem))]

/-- Witness for `C8_append_command_routing`: a fresh cluster has no leader,
so appending fails and changes nothing. -/
theorem C8_witness :
    append_command "cmd" (initCluster ["a", "b"]) = (initCluster ["a", "b"], false) :=
  (C8_append_command_routing (initCluster ["a", "b"]) "cmd" (by decide)).1 (by decide)

/-! ### C4: commit-index monotonicity along executions.

In every reachable state all commit indices are `0` — `handle_append_entries`
is the only writer of `commit_index`, it only raises it towards the sender's
`leader_commit`, and every AppendEntries ever sent carries the sender's own
`commit_index` — so no step can decrease any node's `commit_index`. -/

/-- A message whose `leader_commit` field (if any) is `0`. -/
def MsgOK (m : Message) : Prop :=
  ∀ p pt es lc, m.data = MsgData.appendEntries p pt es lc → lc = 0

/-- Invariant `CommitsZero c`: every node's `commit_index` is `0` and every in-flight
AppendEntries carries `leader_commit = 0`. -/
def CommitsZero (c : RaftCluster) : Prop :=
  (∀ id, (c.nodes id).commit_index = 0) ∧ (∀ m ∈ c.in_flight, MsgOK m)

lemma mem_sendOut {n : RaftNode} {msgs : List Message} {m : Message}
    (h : m ∈ sendOut n msgs) : m ∈ msgs := by
  unfold sendOut at h
  split at h
  · simp at h
  · exact h

lemma start_election_commit (n : RaftNode) :
    (start_election n).1.commit_index = n.commit_index := by
  unfold start_election
  split <;> rfl

lemma start_election_msgs (n : RaftNode) :
    ∀ m ∈ (start_election n).2, MsgOK m := by
  intro m hm p pt es lc hd
  unfold start_election at hm
  split at hm
  · simp at hm
  · obtain ⟨node, -, rfl⟩ := List.mem_map.mp (mem_sendOut hm)
    simp at hd

lemma send_heartbeat_msgs (n : RaftNode) (hc : n.commit_index = 0) :
    ∀ m ∈ send_heartbeat n, MsgOK m := by
  intro m hm p pt es lc hd
  unfold send_heartbeat at hm
  split at hm
  · simp at hm
  · obtain ⟨node, -, rfl⟩ := List.mem_map.mp (mem_sendOut hm)
    simp only [MsgData.appendEntries.injEq] at hd
    rw [← hd.2.2.2, hc]

lemma replicate_log_msgs (n : RaftNode) (hc : n.commit_index = 0) :
    ∀ m ∈ replicate_log n, MsgOK m := by
  intro m hm p pt es lc hd
  unfold replicate_log at hm
  split at hm
  · simp at hm
  · obtain ⟨node, -, rfl⟩ := List.mem_map.mp (mem_sendOut hm)
    simp only [MsgData.appendEntries.injEq] at hd
    rw [← hd.2.2.2, hc]

lemma become_leader_commit (n : RaftNode) :
    (become_leader n).1.commit_index = n.commit_index := rfl

lemma become_leader_msgs (n : RaftNode) (hc : n.commit_index = 0) :
    ∀ m ∈ (become_leader n).2, MsgOK m :=
  send_heartbeat_msgs _ hc

lemma handle_vote_request_commit (m : Message) (n : RaftNode) :
    (handle_vote_request m n).1.commit_index = n.commit_index := by
  unfold handle_vote_request
  split
  · rfl
  · split <;> (dsimp only; split <;> rfl)

lemma handle_vote_request_msgs (m : Message) (n : RaftNode) :
    ∀ m' ∈ (handle_vote_request m n).2.1, MsgOK m' := by
  intro m' hm' p pt es lc hd
  unfold handle_vote_request at hm'
  split at hm'
  · simp at hm'
  · split at hm' <;> (dsimp only at hm'; split at hm')
    · replace hm' := mem_sendOut (show _ ∈ sendOut _ _ from hm')
      obtain rfl := by simpa using hm'
      simp at hd
    · simp at hm'
    · replace hm' := mem_sendOut (show _ ∈ sendOut _ _ from hm')
      obtain rfl := by simpa using hm'
      simp at hd
    · simp at hm'

lemma handle_vote_response_commit (m : Message) (n : RaftNode) :
    (handle_vote_response m n).1.commit_index = n.commit_index := by
  unfold handle_vote_response
  split
  · rfl
  · split
    · dsimp only
      split
      · exact become_leader_commit _
      · rfl
    · rfl

lemma handle_vote_response_msgs (m : Message) (n : RaftNode) (hc : n.commit_index = 0) :
    ∀ m' ∈ (handle_vote_response m n).2, MsgOK m' := by
  intro m' hm'
  unfold handle_vote_response at hm'
  split at hm'
  · simp at hm'
  · split at hm'
    · dsimp only at hm'
      split at hm'
      · exact become_leader_msgs _ hc m' hm'
      · simp at hm'
    · simp at hm'

lemma append_entry_commit (command : String) (n : RaftNode) :
    (append_entry command n).1.commit_index = n.commit_index := by
  unfold append_entry
  split <;> rfl

lemma append_entry_msgs (command : String) (n : RaftNode) (hc : n.commit_index = 0) :
    ∀ m ∈ (append_entry command n).2.2, MsgOK m := by
  intro m hm
  unfold append_entry at hm
  split at hm
  · simp at hm
  · dsimp only at hm
    refine replicate_log_msgs _ ?_ m hm
    exact hc

lemma handle_append_entries_commit (now term : Nat) (p : Int) (pt : Nat)
    (es : List LogEntry) (lc : Int) (n : RaftNode) (hlc : lc ≤ n.commit_index) :
    (handle_append_entries now term p pt es lc n).1.commit_index =
      n.commit_index := by
  unfold handle_append_entries
  split
  · rfl
  · dsimp only
    split_ifs <;> first | rfl | (dsimp only at *; omega)

/-- Every cluster step preserves `CommitsZero`. -/
lemma clusterStep_commitsZero {c c' : RaftCluster}
    (hz : CommitsZero c) (hs : ClusterStep c c') : CommitsZero c' := by
  obtain ⟨hn, hf⟩ := hz
  cases hs with
  | timeout id c hid hstate hfail =>
      refine ⟨fun id' => ?_, fun m hm => ?_⟩
      · unfold applyTimeout
        dsimp only
        rw [Function.update_apply]
        split
        · rw [start_election_commit]
          exact hn id
        · exact hn id'
      · unfold applyTimeout at hm
        dsimp only at hm
        rcases List.mem_append.mp hm with h | h
        · exact hf m h
        · exact start_election_msgs _ m h
  | heartbeat id c hid hstate hfail =>
      refine ⟨hn, fun m hm => ?_⟩
      unfold applyHeartbeat at hm
      dsimp only at hm
      rcases List.mem_append.mp hm with h | h
      · exact hf m h
      · exact send_heartbeat_msgs _ (hn id) m h
  | deliverMsg now m c hm =>
      unfold deliver
      dsimp only
      split
      · split
        · refine ⟨fun id' => ?_, fun m' hm' => ?_⟩
          · dsimp only
            rw [Function.update_apply]
            split
            · rw [handle_vote_request_commit]
              exact hn _
            · exact hn id'
          · dsimp only at hm'
            rcases List.mem_append.mp hm' with h | h
            · exact hf m' (List.mem_of_mem_erase h)
            · exact handle_vote_request_msgs _ _ m' h
        · refine ⟨fun id' => ?_, fun m' hm' => ?_⟩
          · dsimp only
            rw [Function.update_apply]
            split
            · rw [handle_vote_response_commit]
              exact hn _
            · exact hn id'
          · dsimp only at hm'
            rcases List.mem_append.mp hm' with h | h
            · exact hf m' (List.mem_of_mem_erase h)
            · exact handle_vote_response_msgs _ _ (hn _) m' h
        · next p pt es lc heq =>
            refine ⟨fun id' => ?_, fun m' hm' => ?_⟩
            · dsimp only
              rw [Function.update_apply]
              split
              · rw [handle_append_entries_commit]
                · exact hn _
                · rw [hf m hm p pt es lc heq, hn]
              · exact hn id'
            · dsimp only at hm'
              exact hf m' (List.mem_of_mem_erase hm')
      · exact ⟨hn, fun m' hm' => hf m' (List.mem_of_mem_erase hm')⟩
  | clientAppend command c =>
      unfold append_command
      split
      · split
        · exact ⟨hn, hf⟩
        · refine ⟨fun id' => ?_, fun m' hm' => ?_⟩
          · dsimp only
            rw [Function.update_apply]
            split
            · rw [append_entry_commit]
              exact hn _
            · exact hn id'
          · dsimp only at hm'
            rcases List.mem_append.mp hm' with h | h
            · exact hf m' h
            · exact append_entry_msgs _ _ (hn _) m' h
      · exact ⟨hn, hf⟩
  | failNode id c =>
      unfold applyFail
      split
      · refine ⟨fun id' => ?_, hf⟩
        dsimp only
        rw [Function.update_apply]
        split
        · exact hn id
        · exact hn id'
      · exact ⟨hn, hf⟩
  | recoverNode now id c =>
      unfold applyRecover
      split
      · refine ⟨fun id' => ?_, hf⟩
        dsimp only
        rw [Function.update_apply]
        split
        · exact hn id
        · exact hn id'
      · exact ⟨hn, hf⟩
  | partitionNode partitioned id c =>
      unfold applyPartition
      split
      · refine ⟨fun id' => ?_, hf⟩
        dsimp only
        rw [Function.update_apply]
        split
        · exact hn id
        · exact hn id'
      · exact ⟨hn, hf⟩

/-- In every reachable cluster state, every `commit_index` is `0` and every
in-flight AppendEntries carries `leader_commit = 0`: the leader commit
machinery never engages (see `C2_no_replication_feedback`). -/
lemma reachable_commitsZero {ids : List String} {c : RaftCluster}
    (hr : Reachable (initCluster ids) c) : CommitsZero c := by
  induction hr with
  | refl => exact ⟨fun id => rfl, fun m hm => absurd hm (by simp [initCluster])⟩
  | step hr hs ih => exact clusterStep_commitsZero ih hs

/-- C4 (confirmed): along any execution of the cluster — message deliveries,
election timeouts, heartbeats, client appends, failures, recoveries and
partitions — no step ever lowers any node's `commit_index`.  (In this code
the invariant holds degenerately: `commit_index` stays `0` on every node in
every reachable state, because the leader never advances its own
`commit_index`, so the guarded `min(leader_commit, len(log) - 1)` update in
`handle_append_entries` never fires.) -/
theorem C4_commit_index_monotone (ids : List String) (c c' : RaftCluster)
    (id : String) (hr : Reachable (initCluster ids) c) (hs : ClusterStep c c') :
    (c.nodes id).commit_index ≤ (c'.nodes id).commit_index := by
  have h1 := reachable_commitsZero hr
  have h2 := clusterStep_commitsZero h1 hs
  rw [h1.1 id, h2.1 id]

/-- Witness for `C4_commit_index_monotone`: the first election timeout of a
fresh three-node cluster. -/
theorem C4_witness :
    ((initCluster ["a", "b", "c"]).nodes "a").commit_index ≤
      ((applyTimeout "a" (initCluster ["a", "b", "c"])).nodes "a").commit_index :=
  C4_commit_index_monotone ["a", "b", "c"] _ _ "a" Reachable.refl
    (ClusterStep.timeout "a" _ (by decide) (by decide) (by decide))

end StrictDev
